import Mathlib

/-!
Verification development for the load-simulator component of the
`poc-clickhouse-ecommerce-analytics` repository.

The definitions below are a shallow embedding of the Python code in
`src/simulator/app/simulator.py`, `src/simulator/app/data_generators.py`
and `src/simulator/main.py`.  Randomness is made explicit: every call the
Python code makes to `random.randint`, `random.choice`, `random.choices`
or to an identity generator is modelled by an extra argument carrying the
drawn entropy / drawn value.  Python dictionaries used as histograms are
modelled as association lists in insertion order; Python floats are
modelled as rationals; code that can raise returns `Except`/`Option`.
-/

set_option maxRecDepth 8000

namespace ClickhouseSim

/-! ## Configuration data model (config.yaml entries as the simulator reads them) -/

/-- A user-type entry of the `user_types` configuration list, as consumed by
`LoadSimulator._select_user_type` and `UserSession`. -/
structure UserType where
  name : String
  weight : Int
  requests_per_session : Nat × Nat
  think_time_seconds : Rat × Rat
deriving DecidableEq

/-- A region entry of the `geographic_distribution` configuration list. -/
structure Region where
  region : String
  weight : Int
  ip_ranges : Option (List String)
deriving DecidableEq

/-- One flattened endpoint dictionary as built by
`LoadSimulator._build_endpoints` (one entry per `(endpoint, method)` pair). -/
structure Endpoint where
  service : String
  base_url : String
  path : String
  method : String
  weight : Int
  user_types : List String
  payload_generator : Option String
  path_generator : Option String
deriving DecidableEq

/-! ## Association-list histograms

`SimulationStats.status_codes` and `SimulationStats.endpoints_hit` are Python
dicts used as counters:
`if k not in d: d[k] = 0` followed by `d[k] += 1`.  We model them as
association lists in insertion order; `bump` is exactly that two-line idiom. -/

/-- `bump m k` increments the counter stored for key `k`, inserting `(k, 1)`
at the end when `k` is absent (Python dict insertion order). -/
def bump {κ : Type} [DecidableEq κ] : List (κ × Nat) → κ → List (κ × Nat)
  | [], k => [(k, 1)]
  | (k0, v) :: rest, k => if k0 = k then (k0, v + 1) :: rest else (k0, v) :: bump rest k

/-- Value stored for key `k`, `0` when absent (`d.get(k, 0)`). -/
def lookup0 {κ : Type} [DecidableEq κ] : List (κ × Nat) → κ → Nat
  | [], _ => 0
  | (k0, v) :: rest, k => if k0 = k then v else lookup0 rest k

/-- Sum of all counter values of the histogram (`sum(d.values())`). -/
def sumValues {κ : Type} : List (κ × Nat) → Nat
  | [] => 0
  | (_, v) :: rest => v + sumValues rest

/-! ## SimulationStats (`simulator.py`, class `SimulationStats`) -/

/-- The mutable state of `SimulationStats`.  `start_time` is dropped: it is
wall-clock glue used only by `get_stats` reporting. -/
structure SimulationStats where
  total_requests : Nat
  successful_requests : Nat
  failed_requests : Nat
  response_times : List Rat
  status_codes : List (Nat × Nat)
  endpoints_hit : List (String × Nat)
  errors : List String
deriving DecidableEq

/-- `SimulationStats.__init__`: all counters zero, all containers empty. -/
def SimulationStats.init : SimulationStats :=
  ⟨0, 0, 0, [], [], [], []⟩

/-- `SimulationStats.record_request`.  The Python `if error:` test is falsy
both for `None` and for the empty string, hence the inner `if e = ""`. -/
def SimulationStats.record_request (s : SimulationStats) (endpoint method : String)
    (status_code : Nat) (response_time : Rat) (error : Option String) : SimulationStats :=
  { total_requests := s.total_requests + 1
    successful_requests :=
      if status_code < 400 then s.successful_requests + 1 else s.successful_requests
    failed_requests :=
      if status_code < 400 then s.failed_requests else s.failed_requests + 1
    response_times := s.response_times ++ [response_time]
    status_codes := bump s.status_codes status_code
    endpoints_hit := bump s.endpoints_hit (method ++ " " ++ endpoint)
    errors :=
      match error with
      | some e => if e = "" then s.errors else s.errors ++ [e]
      | none => s.errors }

/-- One observed request outcome, as passed to `record_request`. -/
structure RequestRecord where
  endpoint : String
  method : String
  status_code : Nat
  response_time : Rat
  error : Option String
deriving DecidableEq

/-- Feed one record into the stats (`self.stats.record_request(...)`). -/
def applyRecord (s : SimulationStats) (r : RequestRecord) : SimulationStats :=
  s.record_request r.endpoint r.method r.status_code r.response_time r.error

/-- Stats after a finite sequence of `record_request` calls starting from a
freshly initialized `SimulationStats`. -/
def runRecords (rs : List RequestRecord) : SimulationStats :=
  rs.foldl applyRecord SimulationStats.init

/-! ## UserSession (`data_generators.py`, class `UserSession`) -/

/-- `UserSession.__init__` state.  The identity fields are produced by
`DataGenerators` (RNG draws and caches); they enter `UserSession.init` as
parameters.  Note that `__init__` initializes `requests_made = 0` and draws
no request budget: no budget field exists on the session. -/
structure UserSession where
  session_id : String
  user_type : UserType
  region : Region
  user_id : String
  user_agent : String
  ip_address : String
  requests_made : Nat
  session_start : Option Rat
  cart_items : List Nat
  last_product_viewed : Option Nat
deriving DecidableEq

/-- `UserSession.__init__`: stores its arguments and zero-initializes the
session state. -/
def UserSession.init (session_id : String) (user_type : UserType) (region : Region)
    (user_id user_agent ip_address : String) : UserSession :=
  ⟨session_id, user_type, region, user_id, user_agent, ip_address, 0, none, [], none⟩

/-- Python `random.randint(a, b)` (both bounds inclusive), driven by an
explicit entropy value `r`: any value of `r` is a possible draw, and for
`a ≤ b` the result always lies in `[a, b]`. -/
def randint (a b : Nat) (r : Nat) : Nat :=
  a + r % (b + 1 - a)

/-- `UserSession.should_continue_session`: draws `max_requests` afresh with
`random.randint(*self.user_type['requests_per_session'])` on every call and
compares the current counter against that fresh draw. -/
def UserSession.should_continue_session (s : UserSession) (r : Nat) : Bool :=
  decide (s.requests_made <
    randint s.user_type.requests_per_session.1 s.user_type.requests_per_session.2 r)

/-- Python `sub in s` substring test (for non-empty `sub`). -/
def strContains (s sub : String) : Bool :=
  decide (2 ≤ (s.splitOn sub).length)

/-- `UserSession.update_state`: increments `requests_made`, then (the
`'/cart'` branch is `pass` in the source) remembers the last viewed product
when the path contains `'/products/'` and its last `/`-segment is numeric.
The `try/except: pass` around `int(...)` is the fallthrough `none` case. -/
def UserSession.update_state (s : UserSession) (endpoint_path : String)
    (response_data : Option Unit) : UserSession :=
  let s1 : UserSession := { s with requests_made := s.requests_made + 1 }
  if strContains endpoint_path "/products/" then
    let seg := ((endpoint_path.splitOn "/").getLast?).getD ""
    if seg ≠ "" ∧ seg.all Char.isDigit then
      match seg.toNat? with
      | some n => { s1 with last_product_viewed := some n }
      | none => s1
    else s1
  else s1

/-! ## Weighted selection (`random.choices` / `random.choice` and the
`LoadSimulator._select_*` methods) -/

/-- `itertools.accumulate(weights)`: the running cumulative sums. -/
def cumsum : List Int → List Int
  | [] => []
  | w :: rest => w :: (cumsum rest).map (fun c => w + c)

/-- `bisect.bisect_right` on the cumulative-weight list, lower/upper bounds
included, written with explicit fuel.  Each step shrinks `hi - lo` by at
least one, so fuel `hi - lo` (as used by `bisectRight`) never runs out and
the function behaves exactly like the unbounded binary-search loop. -/
def bisectRightAux : Nat → List Int → Rat → Nat → Nat → Nat
  | 0, _, _, lo, _ => lo
  | fuel + 1, l, x, lo, hi =>
    if lo < hi then
      let mid := (lo + hi) / 2
      if x < ((l.getD mid 0 : Int) : Rat) then bisectRightAux fuel l x lo mid
      else bisectRightAux fuel l x (mid + 1) hi
    else lo

/-- `bisect.bisect_right l x lo hi`. -/
def bisectRight (l : List Int) (x : Rat) (lo hi : Nat) : Nat :=
  bisectRightAux (hi - lo) l x lo hi

/-- `random.choices(population, weights=weights)[0]` (CPython semantics),
driven by `u`, the `random.random()` draw in `[0, 1)`.  Raises —
modelled as `Except.error` — exactly where CPython raises: mismatched
lengths, empty population (`cum_weights[-1]` on the empty list), or a
non-positive total weight.  An individual weight `≤ 0` raises nothing as
long as the total stays positive. -/
def choices1 {α : Type} (population : List α) (weights : List Int) (u : Rat) :
    Except String α :=
  let cum_weights := cumsum weights
  if cum_weights.length ≠ population.length then
    Except.error "ValueError: The number of weights does not match the population"
  else
    match cum_weights.getLast? with
    | none => Except.error "IndexError: list index out of range"
    | some total =>
      if total ≤ 0 then
        Except.error "ValueError: Total of weights must be greater than zero"
      else
        let idx := bisectRight cum_weights (u * (total : Rat)) 0 (population.length - 1)
        match population[idx]? with
        | some x => Except.ok x
        | none => Except.error "IndexError: list index out of range"

/-- `random.choice(l)`: uniform choice, modelled by the drawn index `idx`
(`idx < l.length` for every genuine draw); raises `IndexError` on an empty
sequence. -/
def random_choice {α : Type} (l : List α) (idx : Nat) : Except String α :=
  match l[idx]? with
  | some x => Except.ok x
  | none => Except.error "IndexError: list index out of range"

namespace LoadSimulator

/-- The filter inside `LoadSimulator._select_endpoint`:
`[ep for ep in self.endpoints if user_type in ep['user_types']]`. -/
def filter_available (endpoints : List Endpoint) (user_type : String) : List Endpoint :=
  endpoints.filter (fun ep => ep.user_types.contains user_type)

/-- Modelled from the spec (for comparison with `filter_available`): the
filter as §4.2 words it, keeping endpoints whose eligible-user-types set
contains the name *or is empty, meaning "any"*. -/
def spec_filter_available (endpoints : List Endpoint) (user_type : String) : List Endpoint :=
  endpoints.filter (fun ep => ep.user_types.isEmpty || ep.user_types.contains user_type)

/-- `LoadSimulator._select_endpoint`: filter by user type; if the filter is
empty, `random.choice` over the whole endpoint list, else weighted
`random.choices` over the filtered list.  `choice_idx` drives the uniform
fallback draw and `u` the weighted draw. -/
def select_endpoint (endpoints : List Endpoint) (user_type : String)
    (choice_idx : Nat) (u : Rat) : Except String Endpoint :=
  let available := filter_available endpoints user_type
  if available.isEmpty then random_choice endpoints choice_idx
  else choices1 available (available.map Endpoint.weight) u

/-- `LoadSimulator._select_user_type`. -/
def select_user_type (user_types : List UserType) (u : Rat) : Except String UserType :=
  choices1 user_types (user_types.map UserType.weight) u

/-- `LoadSimulator._select_region`. -/
def select_region (regions : List Region) (u : Rat) : Except String Region :=
  choices1 regions (regions.map Region.weight) u

end LoadSimulator

/-- Outcome of the dispatched HTTP call in `_make_request`: either a
response (with `json_error = some m` when a later `response.json()` call
would raise with message `m`), or a transport-level exception with message
`str(e)`. -/
inductive TransportResult where
  | success (status_code : Nat) (json_error : Option String)
  | failure (errMsg : String)
deriving DecidableEq

/-- The method dispatch of `_make_request` binds `response` only for these
four methods. -/
def method_known (m : String) : Bool :=
  m == "GET" || m == "POST" || m == "PUT" || m == "DELETE"

/-- Path templating of `_make_request`: when a `path_generator` is
configured, `path.replace('{id}', param).replace('{item_id}', param)` with
`param` the drawn `get_path_param` output. -/
def resolve_path (ep : Endpoint) (param : String) : String :=
  match ep.path_generator with
  | some _ => (ep.path.replace "{id}" param).replace "{item_id}" param
  | none => ep.path

/-- `str(e)` for the `UnboundLocalError` raised when an unknown HTTP method
leaves `response` unbound and `response.status_code` is then read. -/
def unbound_local_message : String :=
  "local variable response referenced before assignment"

/-- `LoadSimulator._make_request`, for one session and one selected
endpoint.  The throttler acquisition, header/payload construction and
logging carry no state relevant here.  The function is total: every raise
inside the `try` block lands in the `except Exception` handler, which
records a status-500 failure with the raw (untemplated) `endpoint['path']`
and leaves the session untouched — in particular `update_state` (the only
`requests_made` increment) runs only when the call produced a bound
`response` and evaluating `response.json() if response.status_code < 400
else None` did not raise. -/
def LoadSimulator.make_request (stats : SimulationStats) (s : UserSession)
    (ep : Endpoint) (path_param : String) (tr : TransportResult)
    (response_time : Rat) : SimulationStats × UserSession :=
  let path := resolve_path ep path_param
  if method_known ep.method then
    match tr with
    | TransportResult.success status json_err =>
      match (if status < 400 then json_err else none) with
      | some e =>
        (stats.record_request ep.path ep.method 500 response_time (some e), s)
      | none =>
        let s1 := s.update_state path (if status < 400 then some () else none)
        (stats.record_request path ep.method status response_time none, s1)
    | TransportResult.failure e =>
      (stats.record_request ep.path ep.method 500 response_time (some e), s)
  else
    (stats.record_request ep.path ep.method 500 response_time
      (some unbound_local_message), s)

/-- Whether one `_make_request` execution reaches `update_state`, i.e.
increments the session's `requests_made` counter. -/
def request_counts (ep : Endpoint) (tr : TransportResult) : Bool :=
  method_known ep.method &&
    match tr with
    | TransportResult.success status json_err =>
      !(decide (status < 400) && json_err.isSome)
    | TransportResult.failure _ => false

/-! ## The per-session loop of `_user_session_worker`

`while self.running and session.should_continue_session(): ...` with
`self.running` held true (no shutdown signal).  `draws k` is the entropy
fed to the `k`-th `should_continue_session` randint; `ok k` tells whether
the `k`-th `_make_request` reached `update_state` (see `request_counts`);
`paths k` is the resolved path it would pass.  Fuel counts loop iterations;
`none` means the loop was still running when the fuel ran out. -/
def sessionLoop (draws : Nat → Nat) (ok : Nat → Bool) (paths : Nat → String) :
    Nat → Nat → UserSession → Option UserSession
  | 0, _, _ => none
  | fuel + 1, k, s =>
    if s.should_continue_session (draws k) then
      sessionLoop draws ok paths fuel (k + 1)
        (if ok k then s.update_state (paths k) none else s)
    else some s

/-! ## Configuration validation (`main.py`, `validate_config`) -/

/-- One endpoint entry of a service's `endpoints` configuration list. -/
structure EndpointCfg where
  path : String
  methods : List String
  weight : Int
  user_types : Option (List String)
  payload_generator : Option String
  path_generator : Option String
deriving DecidableEq

/-- One service entry of the `endpoints` configuration section; `none`
models an absent key. -/
structure ServiceCfg where
  base_url : Option String
  endpoints : Option (List EndpointCfg)
deriving DecidableEq

/-- One entry of the `user_types` configuration list as `validate_config`
reads it (`'weight' not in user_type` is `weight = none`). -/
structure UserTypeCfg where
  name : Option String
  weight : Option Int
deriving DecidableEq

/-- The `simulation` configuration section. -/
structure SimCfg where
  workers : Option Int
  requests_per_second : Option Rat
deriving DecidableEq

/-- The whole configuration mapping; `none` models a missing section. -/
structure Config where
  simulation : Option SimCfg
  user_types : Option (List UserTypeCfg)
  endpoints : Option (List (String × ServiceCfg))
  geographic_distribution : Option (List Region)
deriving DecidableEq

/-- The `user_types` loop of `validate_config`. -/
def validate_user_types : List UserTypeCfg → Option String
  | [] => none
  | ut :: rest =>
    match ut.weight with
    | none => some ("User type " ++ ut.name.getD "unnamed" ++ " must have positive weight")
    | some w =>
      if w ≤ 0 then
        some ("User type " ++ ut.name.getD "unnamed" ++ " must have positive weight")
      else validate_user_types rest

/-- The services loop of `validate_config`. -/
def validate_services : List (String × ServiceCfg) → Option String
  | [] => none
  | (service_name, svc) :: rest =>
    if svc.base_url.isNone then some ("Service " ++ service_name ++ " missing base_url")
    else if svc.endpoints.isNone then some ("Service " ++ service_name ++ " missing endpoints")
    else validate_services rest

/-- The `simulation`-section checks of `validate_config` (field presence,
then positivity, in source order). -/
def validate_simulation (sim : SimCfg) : Option String :=
  match sim.workers with
  | none => some "Missing required simulation field: workers"
  | some w =>
    match sim.requests_per_second with
    | none => some "Missing required simulation field: requests_per_second"
    | some rps =>
      if w ≤ 0 then some "Number of workers must be positive"
      else if rps ≤ 0 then some "Requests per second must be positive"
      else none

/-- `validate_config`: `some msg` is the printed diagnostic together with
`return False` (on which `main` exits non-zero before starting workers);
`none` is `return True`. -/
def validate_config (c : Config) : Option String :=
  match c.simulation with
  | none => some "Missing required configuration section: simulation"
  | some sim =>
    match c.user_types with
    | none => some "Missing required configuration section: user_types"
    | some uts =>
      match c.endpoints with
      | none => some "Missing required configuration section: endpoints"
      | some svcs =>
        match c.geographic_distribution with
        | none => some "Missing required configuration section: geographic_distribution"
        | some _ =>
          match validate_simulation sim with
          | some e => some e
          | none =>
            match validate_user_types uts with
            | some e => some e
            | none => validate_services svcs

/-! ## Concrete configuration values used to evaluate the definitions -/

/-- A user type with requests-per-session range `[1, 3]`. -/
def ut13 : UserType := ⟨"browser", 1, (1, 3), (0, 0)⟩

/-- A user type with requests-per-session range `[1, 1]`. -/
def ut11 : UserType := ⟨"browser", 1, (1, 1), (0, 0)⟩

/-- A region entry. -/
def reg0 : Region := ⟨"us", 1, none⟩

/-- A mid-lifetime session of `ut13`: one request made so far. -/
def c1_session : UserSession :=
  ⟨"sid-1", ut13, reg0, "user_1234", "UA", "10.0.0.1", 1, none, [], none⟩

/-- A `GET` endpoint eligible for no named user type. -/
def epGET : Endpoint := ⟨"svc", "http://x", "/a", "GET", 1, [], none, none⟩

/-- An endpoint whose HTTP method is outside the dispatched set. -/
def epPATCH : Endpoint := ⟨"svc", "http://x", "/a", "PATCH", 1, [], none, none⟩

/-- A fresh session of `ut13`. -/
def c2_session : UserSession :=
  UserSession.init "sid-2" ut13 reg0 "user_1" "UA" "10.0.0.2"

/-- A fresh session of `ut11` (range `[1, 1]`). -/
def c7_session : UserSession :=
  UserSession.init "sid-7" ut11 reg0 "user_2" "UA" "10.0.0.3"

/-- Endpoint with an *empty* eligible-user-types list. -/
def c3_e1 : Endpoint := ⟨"svc", "http://x", "/a", "GET", 1, [], none, none⟩

/-- Endpoint eligible only for user type `"bot"`. -/
def c3_e2 : Endpoint := ⟨"svc", "http://x", "/b", "GET", 1, ["bot"], none, none⟩

/-- Endpoint eligible for user type `"browser"`. -/
def c3_e3 : Endpoint := ⟨"svc", "http://x", "/c", "GET", 2, ["browser"], none, none⟩

/-- An endpoint configuration entry with weight `0`. -/
def c5_epcfg : EndpointCfg := ⟨"/a", ["GET"], 0, none, none, none⟩

/-- A service whose endpoint list holds only `c5_epcfg`. -/
def c5_svc : ServiceCfg := ⟨some "http://x", some [c5_epcfg]⟩

/-- A configuration that is valid in every checked respect but contains an
endpoint of weight `0`. -/
def c5_config : Config :=
  ⟨some ⟨some 2, some 10⟩, some [⟨some "browser", some 1⟩],
    some [("svc", c5_svc)], some [reg0]⟩

/-- User type of weight `3`. -/
def c6_ut_a : UserType := ⟨"a", 3, (1, 1), (0, 0)⟩

/-- User type of weight `0`. -/
def c6_ut_b : UserType := ⟨"b", 0, (1, 1), (0, 0)⟩

/-! ## Helper lemmas -/

theorem sumValues_bump {κ : Type} [DecidableEq κ] (m : List (κ × Nat)) (k : κ) :
    sumValues (bump m k) = sumValues m + 1 := by
  induction m with
  | nil => simp [bump, sumValues]
  | cons hd tl ih =>
    obtain ⟨k0, v⟩ := hd
    by_cases h : k0 = k <;> simp [bump, sumValues, h, ih] <;> omega

theorem lookup0_bump_self {κ : Type} [DecidableEq κ] (m : List (κ × Nat)) (k : κ) :
    lookup0 (bump m k) k = lookup0 m k + 1 := by
  induction m with
  | nil => simp [bump, lookup0]
  | cons hd tl ih =>
    obtain ⟨k0, v⟩ := hd
    by_cases h : k0 = k <;> simp [bump, lookup0, h, ih]

theorem foldl_total (rs : List RequestRecord) :
    ∀ st : SimulationStats,
      (rs.foldl applyRecord st).total_requests = st.total_requests + rs.length := by
  induction rs with
  | nil => intro st; simp
  | cons r tl ih =>
    intro st
    simp only [List.foldl_cons, ih, List.length_cons]
    simp [applyRecord, SimulationStats.record_request]
    omega

theorem foldl_successful (rs : List RequestRecord) :
    ∀ st : SimulationStats,
      (rs.foldl applyRecord st).successful_requests =
        st.successful_requests + rs.countP (fun r => decide (r.status_code < 400)) := by
  induction rs with
  | nil => intro st; simp
  | cons r tl ih =>
    intro st
    simp only [List.foldl_cons, ih, List.countP_cons]
    by_cases h : r.status_code < 400 <;>
      simp [applyRecord, SimulationStats.record_request, h] <;> omega

theorem foldl_failed (rs : List RequestRecord) :
    ∀ st : SimulationStats,
      (rs.foldl applyRecord st).failed_requests =
        st.failed_requests + rs.countP (fun r => decide (400 ≤ r.status_code)) := by
  induction rs with
  | nil => intro st; simp
  | cons r tl ih =>
    intro st
    simp only [List.foldl_cons, ih, List.countP_cons]
    rcases Nat.lt_or_ge r.status_code 400 with h | h
    · have h' : ¬ (400 ≤ r.status_code) := by omega
      simp [applyRecord, SimulationStats.record_request, h, h']
    · have h' : ¬ (r.status_code < 400) := by omega
      simp [applyRecord, SimulationStats.record_request, h, h']
      omega

theorem foldl_status_sum (rs : List RequestRecord) :
    ∀ st : SimulationStats,
      sumValues (rs.foldl applyRecord st).status_codes =
        sumValues st.status_codes + rs.length := by
  induction rs with
  | nil => intro st; simp
  | cons r tl ih =>
    intro st
    simp only [List.foldl_cons, ih, List.length_cons]
    simp [applyRecord, SimulationStats.record_request, sumValues_bump]
    omega

theorem foldl_response_times (rs : List RequestRecord) :
    ∀ st : SimulationStats,
      (rs.foldl applyRecord st).response_times.length =
        st.response_times.length + rs.length := by
  induction rs with
  | nil => intro st; simp
  | cons r tl ih =>
    intro st
    simp only [List.foldl_cons, ih, List.length_cons]
    simp [applyRecord, SimulationStats.record_request]
    omega

theorem foldl_endpoints_sum (rs : List RequestRecord) :
    ∀ st : SimulationStats,
      sumValues (rs.foldl applyRecord st).endpoints_hit =
        sumValues st.endpoints_hit + rs.length := by
  induction rs with
  | nil => intro st; simp
  | cons r tl ih =>
    intro st
    simp only [List.foldl_cons, ih, List.length_cons]
    simp [applyRecord, SimulationStats.record_request, sumValues_bump]
    omega

theorem countP_split (rs : List RequestRecord) :
    rs.countP (fun r => decide (r.status_code < 400)) +
      rs.countP (fun r => decide (400 ≤ r.status_code)) = rs.length := by
  induction rs with
  | nil => simp
  | cons r tl ih =>
    simp only [List.countP_cons, List.length_cons]
    rcases Nat.lt_or_ge r.status_code 400 with h | h
    · have h' : ¬ (400 ≤ r.status_code) := by omega
      simp [h, h']
      omega
    · have h' : ¬ (r.status_code < 400) := by omega
      simp [h, h']
      omega

/-! ## Claim theorems -/

/-- C4: starting from a freshly initialized `SimulationStats`, after any
finite sequence of `record_request` calls, `successful_requests +
failed_requests = total_requests`, the status-code histogram's values sum
to `total_requests`, and a call was counted as successful exactly when its
status code was strictly below 400 (successful = number of records with
status < 400, failed = number with status ≥ 400). -/
theorem C4_stats_invariants (rs : List RequestRecord) :
    (runRecords rs).successful_requests + (runRecords rs).failed_requests
        = (runRecords rs).total_requests
    ∧ sumValues (runRecords rs).status_codes = (runRecords rs).total_requests
    ∧ (runRecords rs).successful_requests
        = rs.countP (fun r => decide (r.status_code < 400))
    ∧ (runRecords rs).failed_requests
        = rs.countP (fun r => decide (400 ≤ r.status_code)) := by
  have h1 : (runRecords rs).total_requests = rs.length := by
    simpa [runRecords, SimulationStats.init] using foldl_total rs SimulationStats.init
  have h2 : (runRecords rs).successful_requests
      = rs.countP (fun r => decide (r.status_code < 400)) := by
    simpa [runRecords, SimulationStats.init] using foldl_successful rs SimulationStats.init
  have h3 : (runRecords rs).failed_requests
      = rs.countP (fun r => decide (400 ≤ r.status_code)) := by
    simpa [runRecords, SimulationStats.init] using foldl_failed rs SimulationStats.init
  have h4 : sumValues (runRecords rs).status_codes = rs.length := by
    simpa [runRecords, SimulationStats.init, sumValues]
      using foldl_status_sum rs SimulationStats.init
  have h5 := countP_split rs
  exact ⟨by omega, by omega, h2, h3⟩

/-- C10: every `record_request` call appends exactly one latency sample and
increments exactly one endpoint-hit bucket: from a fresh
`SimulationStats`, after any finite sequence of calls the latency-sample
list has length `total_requests` and the endpoint-hit histogram's values
sum to `total_requests`. -/
theorem C10_sample_invariants (rs : List RequestRecord) :
    (runRecords rs).response_times.length = (runRecords rs).total_requests
    ∧ sumValues (runRecords rs).endpoints_hit = (runRecords rs).total_requests := by
  have h1 : (runRecords rs).total_requests = rs.length := by
    simpa [runRecords, SimulationStats.init] using foldl_total rs SimulationStats.init
  have h2 : (runRecords rs).response_times.length = rs.length := by
    simpa [runRecords, SimulationStats.init]
      using foldl_response_times rs SimulationStats.init
  have h3 : sumValues (runRecords rs).endpoints_hit = rs.length := by
    simpa [runRecords, SimulationStats.init, sumValues]
      using foldl_endpoints_sum rs SimulationStats.init
  exact ⟨by omega, by omega⟩

theorem randint_bounds (a b r : Nat) (h : a ≤ b) :
    a ≤ randint a b r ∧ randint a b r ≤ b := by
  unfold randint
  have hpos : 0 < b + 1 - a := by omega
  have := Nat.mod_lt r hpos
  omega

theorem update_state_requests_made (s : UserSession) (p : String) (d : Option Unit) :
    (s.update_state p d).requests_made = s.requests_made + 1 := by
  simp only [UserSession.update_state]
  repeat' split
  all_goals rfl

theorem update_state_user_type (s : UserSession) (p : String) (d : Option Unit) :
    (s.update_state p d).user_type = s.user_type := by
  simp only [UserSession.update_state]
  repeat' split
  all_goals rfl

/-- C1: the claim that the request budget is drawn exactly once at session
creation and that every continue-session check compares `requests_made`
against that single fixed value is false: for the concrete mid-session
state `c1_session` (range `[1, 3]`, one request made) no fixed budget
reproduces the check, because the check's outcome varies with the fresh
per-call randint draw (entropy 0 gives `false`, entropy 2 gives `true`). -/
theorem C1_counterexample :
    ¬ ∃ budget : Nat, ∀ r : Nat,
      UserSession.should_continue_session c1_session r
        = decide (c1_session.requests_made < budget) := by
  rintro ⟨budget, h⟩
  have h0 := (h 0).symm
  have h2 := (h 2).symm
  rw [show UserSession.should_continue_session c1_session 0 = false from by decide] at h0
  rw [show UserSession.should_continue_session c1_session 2 = true from by decide] at h2
  rw [h0] at h2
  exact Bool.noConfusion h2

/-- C1 (amended): `UserSession.__init__` stores no budget; every
`should_continue_session` call draws a fresh value from the user type's
requests-per-session range `[a, b]` and compares `requests_made` against
it.  Consequently a check always continues while `requests_made < a`,
always stops once `requests_made ≥ b`, and the fresh draw always lies in
`[a, b]`. -/
theorem C1_budget_redrawn_each_check (s : UserSession) (r a b : Nat)
    (hab : s.user_type.requests_per_session = (a, b)) (hle : a ≤ b) :
    (s.requests_made < a → s.should_continue_session r = true)
    ∧ (b ≤ s.requests_made → s.should_continue_session r = false)
    ∧ a ≤ randint a b r ∧ randint a b r ≤ b := by
  obtain ⟨h1, h2⟩ := randint_bounds a b r hle
  refine ⟨?_, ?_, h1, h2⟩
  · intro hlt
    simp only [UserSession.should_continue_session, hab, decide_eq_true_eq]
    omega
  · intro hge
    simp only [UserSession.should_continue_session, hab, decide_eq_false_iff_not]
    omega

/-- C1 witness: the amended statement evaluated on the fresh session
`c2_session` of user type `ut13` (range `[1, 3]`). -/
theorem C1_budget_redrawn_each_check_witness :
    (c2_session.requests_made < 1 → c2_session.should_continue_session 0 = true)
    ∧ (3 ≤ c2_session.requests_made → c2_session.should_continue_session 0 = false)
    ∧ 1 ≤ randint 1 3 0 ∧ randint 1 3 0 ≤ 3 :=
  C1_budget_redrawn_each_check c2_session 0 1 3 (by decide) (by decide)

/-- C2: the claim that every request, successful or failed, increments the
session's `requests_made` counter by one is false: a `_make_request` whose
HTTP call raises a transport error records the failure but returns with
the counter unchanged (here still `0`), so the failed request does not
count toward the budget. -/
theorem C2_counterexample :
    ((LoadSimulator.make_request SimulationStats.init c2_session epGET "1"
        (TransportResult.failure "timeout") 0).2).requests_made = 0
    ∧ ((LoadSimulator.make_request SimulationStats.init c2_session epGET "1"
        (TransportResult.failure "timeout") 0).1).failed_requests = 1 := by
  constructor
  · decide
  · decide

/-- C2 (amended): `requests_made` is incremented (by exactly one, via
`update_state`) precisely when the request reaches the state-update line:
the method is dispatched, the HTTP call returns a response, and evaluating
`response.json()` for a sub-400 status does not raise.  On a
transport-level failure the exception handler records the outcome but
leaves the counter unchanged, and the session still proceeds to its next
iteration. -/
theorem C2_failed_request_not_counted (stats : SimulationStats) (s : UserSession)
    (ep : Endpoint) (pp : String) (tr : TransportResult) (rt : Rat) :
    ((LoadSimulator.make_request stats s ep pp tr rt).2).requests_made
      = (if request_counts ep tr then s.requests_made + 1 else s.requests_made) := by
  unfold LoadSimulator.make_request request_counts
  by_cases hm : method_known ep.method = true
  · cases tr with
    | success status json_err =>
      by_cases hs : status < 400
      · cases json_err with
        | some e => simp [hm, hs]
        | none => simp [hm, hs, update_state_requests_made]
      · simp [hm, hs, update_state_requests_made]
    | failure e => simp [hm]
  · simp [Bool.not_eq_true] at hm
    simp [hm]

/-- C8: when the HTTP call raises a transport-level error (any exception),
the outcome is recorded as a failure with the sentinel status code 500 and
the exception's description as the error text: the total and failed
counters each grow by one, the successful counter is untouched, the
status-code histogram's 500 bucket grows by one, the error text is
appended, and — the exception being swallowed by the handler — the
function returns normally with the session unchanged. -/
theorem C8_transport_error_recorded (stats : SimulationStats) (s : UserSession)
    (ep : Endpoint) (pp msg : String) (rt : Rat)
    (hm : method_known ep.method = true) (hmsg : msg ≠ "") :
    ((LoadSimulator.make_request stats s ep pp (TransportResult.failure msg) rt).1).total_requests
        = stats.total_requests + 1
    ∧ ((LoadSimulator.make_request stats s ep pp (TransportResult.failure msg) rt).1).failed_requests
        = stats.failed_requests + 1
    ∧ ((LoadSimulator.make_request stats s ep pp (TransportResult.failure msg) rt).1).successful_requests
        = stats.successful_requests
    ∧ lookup0 ((LoadSimulator.make_request stats s ep pp (TransportResult.failure msg) rt).1).status_codes 500
        = lookup0 stats.status_codes 500 + 1
    ∧ ((LoadSimulator.make_request stats s ep pp (TransportResult.failure msg) rt).1).errors
        = stats.errors ++ [msg]
    ∧ (LoadSimulator.make_request stats s ep pp (TransportResult.failure msg) rt).2 = s := by
  simp [LoadSimulator.make_request, hm, SimulationStats.record_request, hmsg,
    lookup0_bump_self]

/-- C8 witness: the theorem evaluated at a concrete timeout failure on the
`GET` endpoint `epGET`. -/
theorem C8_transport_error_recorded_witness :
    ((LoadSimulator.make_request SimulationStats.init c2_session epGET "1"
        (TransportResult.failure "ReadTimeout") 0).1).total_requests
        = SimulationStats.init.total_requests + 1
    ∧ ((LoadSimulator.make_request SimulationStats.init c2_session epGET "1"
        (TransportResult.failure "ReadTimeout") 0).1).failed_requests
        = SimulationStats.init.failed_requests + 1
    ∧ ((LoadSimulator.make_request SimulationStats.init c2_session epGET "1"
        (TransportResult.failure "ReadTimeout") 0).1).successful_requests
        = SimulationStats.init.successful_requests
    ∧ lookup0 ((LoadSimulator.make_request SimulationStats.init c2_session epGET "1"
        (TransportResult.failure "ReadTimeout") 0).1).status_codes 500
        = lookup0 SimulationStats.init.status_codes 500 + 1
    ∧ ((LoadSimulator.make_request SimulationStats.init c2_session epGET "1"
        (TransportResult.failure "ReadTimeout") 0).1).errors
        = SimulationStats.init.errors ++ ["ReadTimeout"]
    ∧ (LoadSimulator.make_request SimulationStats.init c2_session epGET "1"
        (TransportResult.failure "ReadTimeout") 0).2 = c2_session :=
  C8_transport_error_recorded SimulationStats.init c2_session epGET "1" "ReadTimeout" 0
    (by decide) (by decide)

/-- C9: when `_make_request` is invoked with an endpoint whose HTTP method
is not one of GET/POST/PUT/DELETE, no dispatch branch binds `response`;
reading `response.status_code` raises and the generic handler records the
request as a failure with sentinel status 500 (and the unbound-variable
description as error text), regardless of the transport outcome.  The
request is always recorded (total grows by one) and never counted as
successful, and the session is returned unchanged. -/
theorem C9_unknown_method_recorded_failure (stats : SimulationStats) (s : UserSession)
    (ep : Endpoint) (pp : String) (tr : TransportResult) (rt : Rat)
    (hm : method_known ep.method = false) :
    ((LoadSimulator.make_request stats s ep pp tr rt).1).total_requests
        = stats.total_requests + 1
    ∧ ((LoadSimulator.make_request stats s ep pp tr rt).1).failed_requests
        = stats.failed_requests + 1
    ∧ ((LoadSimulator.make_request stats s ep pp tr rt).1).successful_requests
        = stats.successful_requests
    ∧ lookup0 ((LoadSimulator.make_request stats s ep pp tr rt).1).status_codes 500
        = lookup0 stats.status_codes 500 + 1
    ∧ ((LoadSimulator.make_request stats s ep pp tr rt).1).errors
        = stats.errors ++ [unbound_local_message]
    ∧ (LoadSimulator.make_request stats s ep pp tr rt).2 = s := by
  simp [LoadSimulator.make_request, hm, SimulationStats.record_request,
    lookup0_bump_self, unbound_local_message]

/-- C9 witness: the theorem evaluated on the `PATCH` endpoint `epPATCH`
with a (never consulted) successful transport outcome. -/
theorem C9_unknown_method_recorded_failure_witness :
    ((LoadSimulator.make_request SimulationStats.init c2_session epPATCH "1"
        (TransportResult.success 200 none) 0).1).total_requests
        = SimulationStats.init.total_requests + 1
    ∧ ((LoadSimulator.make_request SimulationStats.init c2_session epPATCH "1"
        (TransportResult.success 200 none) 0).1).failed_requests
        = SimulationStats.init.failed_requests + 1
    ∧ ((LoadSimulator.make_request SimulationStats.init c2_session epPATCH "1"
        (TransportResult.success 200 none) 0).1).successful_requests
        = SimulationStats.init.successful_requests
    ∧ lookup0 ((LoadSimulator.make_request SimulationStats.init c2_session epPATCH "1"
        (TransportResult.success 200 none) 0).1).status_codes 500
        = lookup0 SimulationStats.init.status_codes 500 + 1
    ∧ ((LoadSimulator.make_request SimulationStats.init c2_session epPATCH "1"
        (TransportResult.success 200 none) 0).1).errors
        = SimulationStats.init.errors ++ [unbound_local_message]
    ∧ (LoadSimulator.make_request SimulationStats.init c2_session epPATCH "1"
        (TransportResult.success 200 none) 0).2 = c2_session :=
  C9_unknown_method_recorded_failure SimulationStats.init c2_session epPATCH "1"
    (TransportResult.success 200 none) 0 (by decide)

theorem getLast?_map_int (f : Int → Int) (l : List Int) :
    (l.map f).getLast? = l.getLast?.map f := by
  induction l with
  | nil => simp
  | cons a l ih =>
    cases l with
    | nil => simp
    | cons b l2 => simpa [List.getLast?_cons_cons] using ih

theorem cumsum_length (ws : List Int) : (cumsum ws).length = ws.length := by
  induction ws with
  | nil => rfl
  | cons w rest ih => simp [cumsum, ih]

theorem cumsum_getLast (w : Int) (ws : List Int) :
    (cumsum (w :: ws)).getLast? = some ((w :: ws).sum) := by
  induction ws generalizing w with
  | nil => simp [cumsum]
  | cons w2 rest ih =>
    have hstep : (cumsum (w :: w2 :: rest)).getLast?
        = ((cumsum (w2 :: rest)).map (fun c => w + c)).getLast? := by
      show (w :: (cumsum (w2 :: rest)).map (fun c => w + c)).getLast? = _
      simp only [cumsum, List.map_cons, List.getLast?_cons_cons]
    rw [hstep, getLast?_map_int, ih w2]
    simp

theorem bisectRightAux_le (fuel : Nat) :
    ∀ (l : List Int) (x : Rat) (lo hi : Nat), lo ≤ hi →
      bisectRightAux fuel l x lo hi ≤ hi := by
  induction fuel with
  | zero =>
    intro l x lo hi h
    simpa [bisectRightAux] using h
  | succ n ih =>
    intro l x lo hi h
    by_cases hlh : lo < hi
    · simp only [bisectRightAux, if_pos hlh]
      by_cases hx : x < ((l.getD ((lo + hi) / 2) 0 : Int) : Rat)
      · rw [if_pos hx]
        have hmid : (lo + hi) / 2 < hi := by omega
        exact le_trans (ih l x lo ((lo + hi) / 2) (by omega)) (by omega)
      · rw [if_neg hx]
        exact ih l x ((lo + hi) / 2 + 1) hi (by omega)
    · simp only [bisectRightAux, if_neg hlh]
      exact h

theorem choices1_isOk_iff {α : Type} (population : List α) (weights : List Int)
    (u : Rat) (hlen : weights.length = population.length) :
    (choices1 population weights u).isOk = true
      ↔ (population ≠ [] ∧ 0 < weights.sum) := by
  have hclen : (cumsum weights).length = population.length := by
    rw [cumsum_length, hlen]
  cases weights with
  | nil =>
    have hpop : population = [] := by
      have : population.length = 0 := by simpa using hlen.symm
      exact List.length_eq_zero.mp this
    subst hpop
    simp [choices1, cumsum, Except.isOk, Except.toBool]
  | cons w ws =>
    have hpop : population ≠ [] := by
      intro hz
      rw [hz] at hlen
      simp at hlen
    have hpos : 0 < population.length := List.length_pos.mpr hpop
    simp only [choices1, hclen, ne_eq, not_true_eq_false, if_false, ite_false,
      cumsum_getLast w ws]
    by_cases ht : (w :: ws).sum ≤ 0
    · simp only [if_pos ht]
      constructor
      · intro hk
        exact absurd hk (by simp [Except.isOk, Except.toBool])
      · intro ⟨_, hlt⟩
        omega
    · simp only [if_neg ht]
      have hidx : bisectRight (cumsum (w :: ws)) (u * (((w :: ws).sum : Int) : Rat)) 0
          (population.length - 1) < population.length := by
        have := bisectRightAux_le (population.length - 1 - 0)
          (cumsum (w :: ws)) (u * (((w :: ws).sum : Int) : Rat)) 0
          (population.length - 1) (by omega)
        unfold bisectRight
        omega
      rw [List.getElem?_eq_getElem hidx]
      simp only [Except.isOk, Except.toBool]
      constructor
      · intro _
        exact ⟨hpop, by omega⟩
      · intro _
        trivial

/-- C3: the claim that endpoint selection filters to endpoints whose
eligible-user-types set contains the user type *or is empty (empty meaning
any)* is false: the code's filter is plain membership, so an endpoint with
an empty `user_types` list is excluded.  For `[c3_e1, c3_e2]` (`c3_e1` has
an empty list, `c3_e2` is `"bot"`-only) and user type `"browser"` the
spec's filter would be `[c3_e1]`, but the code's filter is empty and the
fallback uniform choice over the *entire* set can return `c3_e2`, an
endpoint the claimed filter excludes. -/
theorem C3_counterexample :
    LoadSimulator.filter_available [c3_e1, c3_e2] "browser" = []
    ∧ LoadSimulator.spec_filter_available [c3_e1, c3_e2] "browser" = [c3_e1]
    ∧ LoadSimulator.select_endpoint [c3_e1, c3_e2] "browser" 1 0 = Except.ok c3_e2
    ∧ c3_e2 ∉ LoadSimulator.spec_filter_available [c3_e1, c3_e2] "browser" := by
  refine ⟨by decide, by decide, rfl, by decide⟩

/-- C3 (amended): endpoint selection filters to exactly those endpoints
whose eligible-user-types list contains the user type name (an endpoint
with an empty list is *not* kept by the filter); whenever the filter is
empty, selection falls back to a uniform choice over the entire endpoint
set and, for a non-empty endpoint set (any in-range draw), returns an
endpoint of that set rather than raising an error. -/
theorem C3_filter_and_fallback (eps : List Endpoint) (ut : String) (idx : Nat)
    (u : Rat) :
    (∀ ep : Endpoint, ep ∈ LoadSimulator.filter_available eps ut
        ↔ (ep ∈ eps ∧ ep.user_types.contains ut = true))
    ∧ (LoadSimulator.filter_available eps ut = [] → idx < eps.length →
        ∃ ep : Endpoint, LoadSimulator.select_endpoint eps ut idx u = Except.ok ep
          ∧ ep ∈ eps) := by
  constructor
  · intro ep
    simp [LoadSimulator.filter_available, List.mem_filter]
  · intro hempty hidx
    refine ⟨eps[idx], ?_, List.getElem_mem hidx⟩
    simp [LoadSimulator.select_endpoint, hempty, random_choice,
      List.getElem?_eq_getElem hidx]

/-- C3 witness: the fallback branch evaluated on the concrete endpoint set
`[c3_e1, c3_e2]`, none of whose members is eligible for `"browser"`. -/
theorem C3_filter_and_fallback_witness :
    ∃ ep : Endpoint, LoadSimulator.select_endpoint [c3_e1, c3_e2] "browser" 1 0
        = Except.ok ep ∧ ep ∈ [c3_e1, c3_e2] :=
  (C3_filter_and_fallback [c3_e1, c3_e2] "browser" 1 0).2 (by decide) (by decide)

/-- C6: the claim that weighted selection fails whenever any candidate's
weight is ≤ 0 is false: with candidates of weights `[3, 0]` the total is
positive, so `random.choices` raises nothing and silently returns an
item. -/
theorem C6_counterexample :
    c6_ut_b.weight ≤ 0
    ∧ (LoadSimulator.select_user_type [c6_ut_a, c6_ut_b] 0).isOk = true := by
  refine ⟨by decide, ?_⟩
  exact (choices1_isOk_iff [c6_ut_a, c6_ut_b]
    ([c6_ut_a, c6_ut_b].map UserType.weight) 0 (by simp)).mpr ⟨by decide, by decide⟩

/-- C6 (amended): a weighted-selection call fails (raises) exactly when the
candidate list is empty or the *total* of the weights is ≤ 0; an
individual non-positive weight whose total stays positive is silently
accepted.  Stated for the three call sites: user-type selection, region
selection, and the weighted branch of endpoint selection (whose candidate
list is the filtered endpoint set, here assumed non-empty so that the
weighted branch runs). -/
theorem C6_weighted_selection_error_iff (uts : List UserType)
    (regions : List Region) (eps : List Endpoint) (ut_name : String) (u : Rat)
    (hep : LoadSimulator.filter_available eps ut_name ≠ []) :
    ((LoadSimulator.select_user_type uts u).isOk = true
        ↔ (uts ≠ [] ∧ 0 < (uts.map UserType.weight).sum))
    ∧ ((LoadSimulator.select_region regions u).isOk = true
        ↔ (regions ≠ [] ∧ 0 < (regions.map Region.weight).sum))
    ∧ ((LoadSimulator.select_endpoint eps ut_name 0 u).isOk = true
        ↔ 0 < ((LoadSimulator.filter_available eps ut_name).map Endpoint.weight).sum) := by
  refine ⟨?_, ?_, ?_⟩
  · simpa [LoadSimulator.select_user_type]
      using choices1_isOk_iff uts (uts.map UserType.weight) u (by simp)
  · simpa [LoadSimulator.select_region]
      using choices1_isOk_iff regions (regions.map Region.weight) u (by simp)
  · have hne : (LoadSimulator.filter_available eps ut_name).isEmpty = false := by
      simpa [List.isEmpty_iff] using hep
    have hch := choices1_isOk_iff (LoadSimulator.filter_available eps ut_name)
      ((LoadSimulator.filter_available eps ut_name).map Endpoint.weight) u (by simp)
    simp only [LoadSimulator.select_endpoint, hne, Bool.false_eq_true, if_false, ite_false]
    rw [hch]
    simp [hep]

/-- C6 witness: the amended characterization evaluated on singleton
candidate lists with positive weights. -/
theorem C6_weighted_selection_error_iff_witness :
    ((LoadSimulator.select_user_type [c6_ut_a] 0).isOk = true
        ↔ ([c6_ut_a] ≠ [] ∧ 0 < ([c6_ut_a].map UserType.weight).sum))
    ∧ ((LoadSimulator.select_region [reg0] 0).isOk = true
        ↔ ([reg0] ≠ [] ∧ 0 < ([reg0].map Region.weight).sum))
    ∧ ((LoadSimulator.select_endpoint [c3_e3] "browser" 0 0).isOk = true
        ↔ 0 < ((LoadSimulator.filter_available [c3_e3] "browser").map Endpoint.weight).sum) :=
  C6_weighted_selection_error_iff [c6_ut_a] [reg0] [c3_e3] "browser" 0 (by decide)

theorem validate_user_types_none_iff (uts : List UserTypeCfg) :
    validate_user_types uts = none
      ↔ ∀ ut ∈ uts, ∃ w, ut.weight = some w ∧ 0 < w := by
  induction uts with
  | nil => simp [validate_user_types]
  | cons ut rest ih =>
    cases hw : ut.weight with
    | none => simp [validate_user_types, hw]
    | some w =>
      by_cases hle : w ≤ 0
      · have : ¬ (0 : Int) < w := by omega
        simp [validate_user_types, hw, hle, this]
      · have : (0 : Int) < w := by omega
        simp [validate_user_types, hw, hle, this, ih]

theorem validate_services_none_iff (svcs : List (String × ServiceCfg)) :
    validate_services svcs = none
      ↔ ∀ p ∈ svcs, p.2.base_url.isSome = true ∧ p.2.endpoints.isSome = true := by
  induction svcs with
  | nil => simp [validate_services]
  | cons p rest ih =>
    obtain ⟨name, svc⟩ := p
    cases hbu : svc.base_url with
    | none => simp [validate_services, hbu]
    | some b =>
      cases hel : svc.endpoints with
      | none => simp [validate_services, hbu, hel]
      | some es => simp [validate_services, hbu, hel, ih]

theorem validate_simulation_none_iff (sim : SimCfg) :
    validate_simulation sim = none
      ↔ ((∃ w, sim.workers = some w ∧ 0 < w)
          ∧ (∃ r, sim.requests_per_second = some r ∧ 0 < r)) := by
  cases hw : sim.workers with
  | none => simp [validate_simulation, hw]
  | some w =>
    cases hr : sim.requests_per_second with
    | none => simp [validate_simulation, hw, hr]
    | some r =>
      by_cases h1 : w ≤ 0
      · have : ¬ (0 : Int) < w := by omega
        simp [validate_simulation, hw, hr, h1, this]
      · by_cases h2 : r ≤ 0
        · have : ¬ (0 : Rat) < r := not_lt.mpr h2
          simp [validate_simulation, hw, hr, h1, h2, this]
        · have hw' : (0 : Int) < w := by omega
          have hr' : (0 : Rat) < r := not_le.mp h2
          simp [validate_simulation, hw, hr, h1, h2, hw', hr']

/-- C5: the claim that configuration validation rejects, among the listed
defects, *any endpoint with weight ≤ 0* is false: `validate_config` never
reads endpoint weights.  The concrete configuration `c5_config` — all
sections present, positive worker count and rate, positive user-type
weight, base URL and endpoint list present — contains the weight-0
endpoint `c5_epcfg` and still passes validation. -/
theorem C5_counterexample :
    c5_epcfg.weight ≤ 0
    ∧ c5_config.endpoints = some [("svc", c5_svc)]
    ∧ c5_svc.endpoints = some [c5_epcfg]
    ∧ validate_config c5_config = none := by
  refine ⟨by decide, by decide, by decide, ?_⟩
  rfl

/-- C5 (amended): `validate_config` accepts a configuration exactly when
all four required sections are present, the worker count and
requests-per-second fields are present and positive, every user type has a
present positive weight, and every service has a base URL and an endpoint
list.  Endpoint weights are not examined, so a non-positive endpoint
weight is not rejected; on every rejected configuration `validate_config`
returns the diagnostic naming the failing field, on which `main` exits
non-zero before starting any worker. -/
theorem C5_validation_characterization (c : Config) :
    validate_config c = none
      ↔ ((∃ sim, c.simulation = some sim
            ∧ (∃ w, sim.workers = some w ∧ 0 < w)
            ∧ (∃ r, sim.requests_per_second = some r ∧ 0 < r))
          ∧ (∃ uts, c.user_types = some uts
              ∧ ∀ ut ∈ uts, ∃ w, ut.weight = some w ∧ 0 < w)
          ∧ (∃ svcs, c.endpoints = some svcs
              ∧ ∀ p ∈ svcs, p.2.base_url.isSome = true ∧ p.2.endpoints.isSome = true)
          ∧ c.geographic_distribution.isSome = true) := by
  cases hsim : c.simulation with
  | none => simp [validate_config, hsim]
  | some sim =>
    cases hut : c.user_types with
    | none => simp [validate_config, hsim, hut]
    | some uts =>
      cases hep : c.endpoints with
      | none => simp [validate_config, hsim, hut, hep]
      | some svcs =>
        cases hgeo : c.geographic_distribution with
        | none => simp [validate_config, hsim, hut, hep, hgeo]
        | some geo =>
          have hmatch : validate_config c = none
              ↔ (validate_simulation sim = none ∧ validate_user_types uts = none
                  ∧ validate_services svcs = none) := by
            simp only [validate_config, hsim, hut, hep, hgeo]
            cases hvs : validate_simulation sim with
            | some e => simp
            | none =>
              cases hvu : validate_user_types uts with
              | some e => simp
              | none => simp
          rw [hmatch, validate_simulation_none_iff, validate_user_types_none_iff,
            validate_services_none_iff]
          simp only [hsim, hut, hep, hgeo, Option.some.injEq, Option.isSome_some,
            and_true, exists_eq_left']

theorem sessionLoop_failure_stuck (fuel : Nat) :
    ∀ k : Nat, sessionLoop (fun _ => 0) (fun _ => false) (fun _ => "/") fuel k
      c7_session = none := by
  induction fuel with
  | zero => intro k; rfl
  | succ n ih =>
    intro k
    have hc : c7_session.should_continue_session 0 = true := by decide
    simp only [sessionLoop, hc, if_true, if_false, ite_true, ite_false]
    exact ih (k + 1)

/-- C7: the claim that a session with requests-per-session range `[a, b]`
(here `[1, 1]`) always terminates with between `a` and `b` requests made,
for every sequence of random draws, is false for the code as written: when
every `_make_request` fails at the transport level the counter is never
incremented (see `C2`), every continue-check draw from `[1, 1]` equals `1
> 0`, and the session loop never exits — no amount of loop fuel makes it
return. -/
theorem C7_counterexample :
    (∀ r : Nat, randint 1 1 r = 1)
    ∧ ¬ ∃ (fuel : Nat) (u : UserSession),
        sessionLoop (fun _ => 0) (fun _ => false) (fun _ => "/") fuel 0
          c7_session = some u := by
  constructor
  · intro r
    simp [randint, Nat.mod_one]
  · rintro ⟨fuel, u, h⟩
    rw [sessionLoop_failure_stuck fuel 0] at h
    exact Option.noConfusion h

theorem sessionLoop_terminates_general (a b : Nat) (draws : Nat → Nat)
    (ok : Nat → Bool) (paths : Nat → String) (hok : ∀ k, ok k = true)
    (hle : a ≤ b) :
    ∀ (fuel k : Nat) (s : UserSession),
      s.user_type.requests_per_session = (a, b) →
      s.requests_made ≤ b → b + 1 - s.requests_made ≤ fuel →
      ∃ u : UserSession, sessionLoop draws ok paths fuel k s = some u
        ∧ a ≤ u.requests_made ∧ u.requests_made ≤ b := by
  intro fuel
  induction fuel with
  | zero =>
    intro k s hab hsb hf
    omega
  | succ n ih =>
    intro k s hab hsb hf
    have hrb := randint_bounds a b (draws k) hle
    by_cases hc : s.should_continue_session (draws k) = true
    · have hmade : s.requests_made < randint a b (draws k) := by
        simpa [UserSession.should_continue_session, hab] using hc
      have hstep := ih (k + 1) (s.update_state (paths k) none)
        (by rw [update_state_user_type]; exact hab)
        (by rw [update_state_requests_made]; omega)
        (by rw [update_state_requests_made]; omega)
      obtain ⟨u, hu, hua, hub⟩ := hstep
      refine ⟨u, ?_, hua, hub⟩
      simp only [sessionLoop, hc, if_true, ite_true, hok k]
      exact hu
    · simp only [Bool.not_eq_true] at hc
      have hstop : randint a b (draws k) ≤ s.requests_made := by
        have := hc
        simp only [UserSession.should_continue_session, hab,
          decide_eq_false_iff_not, not_lt] at this
        exact this
      refine ⟨s, ?_, by omega, hsb⟩
      simp only [sessionLoop, hc, ite_false, Bool.false_eq_true, if_false]

/-- C7 (amended): *provided every executed request completes and is
counted* (its `_make_request` reaches `update_state`; by `C2` a
transport-failed request is not counted and the loop can then run
forever), a session of a user type with requests-per-session range
`[a, b]`, `1 ≤ a ≤ b`, terminates within `b + 1` continue-checks for every
possible sequence of random draws, and at termination its `requests_made`
counter lies between `a` and `b` inclusive — in particular it is never
`0` and never exceeds `b`. -/
theorem C7_session_terminates_in_range (a b : Nat) (s : UserSession)
    (draws : Nat → Nat) (ok : Nat → Bool) (paths : Nat → String)
    (hab : s.user_type.requests_per_session = (a, b)) (ha : 1 ≤ a) (hle : a ≤ b)
    (hs0 : s.requests_made = 0) (hok : ∀ k, ok k = true) :
    ∃ u : UserSession, sessionLoop draws ok paths (b + 1) 0 s = some u
      ∧ a ≤ u.requests_made ∧ u.requests_made ≤ b ∧ u.requests_made ≠ 0 := by
  obtain ⟨u, hu, hua, hub⟩ := sessionLoop_terminates_general a b draws ok paths hok
    hle (b + 1) 0 s hab (by omega) (by omega)
  exact ⟨u, hu, hua, hub, by omega⟩

/-- C7 witness: the amended statement evaluated on the fresh `[1, 1]`-range
session `c7_session` with all requests succeeding. -/
theorem C7_session_terminates_in_range_witness :
    ∃ u : UserSession, sessionLoop (fun _ => 0) (fun _ => true) (fun _ => "/") 2 0
        c7_session = some u
      ∧ 1 ≤ u.requests_made ∧ u.requests_made ≤ 1 ∧ u.requests_made ≠ 0 :=
  C7_session_terminates_in_range 1 1 c7_session (fun _ => 0) (fun _ => true)
    (fun _ => "/") (by decide) (by decide) (by decide) (by decide) (fun _ => rfl)

end ClickhouseSim
